import Mathlib

/-!
Verification of the robocup-prototype control stack.

Shallow embedding of:
- `src/gamestate/gamestate.py` : `GameState` (ball/robot position deques,
  staleness queries, ball-velocity estimation);
- `src/strategy/strategy.py`  : `Strategy.control_loop` (tick loop with its
  try/except boundary, and the per-tick command reconciliation pass);
- `src/coordinator.py`        : `Coordinator` channel operations
  (`game_loop`, `publish_new_gamestate`, `update_robot_commands`);
- `src/move/comms/johnrobot.py` : `JohnRobot.move` / `JohnRobot.kill`.

Python floats are embedded as rationals (ℚ); timestamps are passed
explicitly where the source calls `time.time()`.  Python dicts are
association lists; `collections.deque(maxlen=n)` with `appendleft` is a
list (newest first) truncated to `n`.  A Python function that can raise
is embedded with an `Option`/result codomain (`none` = exception).
-/

/-- Ball positions in the source are `(x, y)` pairs. -/
abbrev Pos : Type := ℚ × ℚ

/-- Robot positions in the source are `(x, y, w)` with `w` the rotation. -/
abbrev Pose : Type := ℚ × ℚ × ℚ

/-- An entry of a position deque: `(time, pos)` as stored by
`update_ball_position` / `update_robot_position`. -/
abbrev Sample (α : Type) : Type := ℚ × α

/-- Embeds `deque(maxlen).appendleft(x)`: the new element goes to the front and,
when the deque is full, the rightmost (oldest) element is discarded. -/
def dequeAppendleft {α : Type} (maxlen : Nat) (x : α) (d : List α) : List α :=
  (x :: d).take maxlen

/-- Python dict lookup `d[k]` / `k in d`, on an association-list model. -/
def dictGet? {β : Type} (k : Nat) : List (Nat × β) → Option β
  | [] => none
  | (key, v) :: rest => if key = k then some v else dictGet? k rest

/-- Python dict assignment `d[k] = v`, on an association-list model. -/
def dictSet {β : Type} (k : Nat) (v : β) : List (Nat × β) → List (Nat × β)
  | [] => [(k, v)]
  | (key, w) :: rest =>
      if key = k then (key, v) :: rest else (key, w) :: dictSet k v rest

-- Constants at the top of src/gamestate/gamestate.py.
def BALL_POS_HISTORY_LENGTH : Nat := 20
def BALL_LOST_TIME : ℚ := 1/10
def ROBOT_POS_HISTORY_LENGTH : Nat := 20
def ROBOT_LOST_TIME : ℚ := 1/5

/-- A waypoint as described in the source comment:
`(pos, min_speed, max_speed)`. -/
abbrev Waypoint : Type := Pose × Option ℚ × Option ℚ

/-- The fields of `GameState.__init__` (src/gamestate/gamestate.py).
The analysis-thread bookkeeping fields (`_is_analyzing`,
`_analysis_thread`) are runtime thread handles and are not part of the
data model. -/
structure GameState where
  ball_position : List (Sample Pos)
  robot_positions : List (Nat × List (Sample Pose))
  robot_waypoints : List (Nat × List Waypoint)
  robot_dribblers : List (Nat × ℚ)
  robot_chargings : List (Nat × Bool)
  robot_kicks : List (Nat × Bool)
  ball_velocity : Pos

/-- The state `GameState.__init__` produces. -/
def emptyGameState : GameState :=
  { ball_position := []
    robot_positions := []
    robot_waypoints := []
    robot_dribblers := []
    robot_chargings := []
    robot_kicks := []
    ball_velocity := (0, 0) }

/-- Embeds `GameState.get_ball_position`. -/
def GameState.get_ball_position (gs : GameState) : Option Pos :=
  match gs.ball_position with
  | [] => none
  | (_, pos) :: _ => some pos

/-- Embeds `GameState.update_ball_position(pos)`; `now` stands for the
`time.time()` call inside it. -/
def GameState.update_ball_position (gs : GameState) (now : ℚ) (pos : Pos) :
    GameState :=
  { gs with ball_position :=
      dequeAppendleft BALL_POS_HISTORY_LENGTH (now, pos) gs.ball_position }

/-- Embeds `GameState.get_ball_last_update_time`. -/
def GameState.get_ball_last_update_time (gs : GameState) : Option ℚ :=
  match gs.ball_position with
  | [] => none
  | (timestamp, _) :: _ => some timestamp

/-- Embeds `GameState.is_ball_lost`; `now` stands for the `time.time()` call. -/
def GameState.is_ball_lost (gs : GameState) (now : ℚ) : Bool :=
  match gs.get_ball_last_update_time with
  | none => true
  | some last_update_time => decide (now - last_update_time > BALL_LOST_TIME)

/-- Embeds `GameState.get_robot_position(robot_id)`.  Note the source keys
`_robot_positions` by `robot_id` alone: there is no team argument. -/
def GameState.get_robot_position (gs : GameState) (robot_id : Nat) :
    Option Pose :=
  match dictGet? robot_id gs.robot_positions with
  | none => none
  | some q =>
      match q with
      | [] => none
      | (_, pos) :: _ => some pos

/-- Embeds `GameState.update_robot_position(robot_id, pos)`: creates the entry
with an empty deque on first sight of the id, then appends at the front.
No team argument exists in the source. -/
def GameState.update_robot_position (gs : GameState) (now : ℚ)
    (robot_id : Nat) (pos : Pose) : GameState :=
  let cur : List (Sample Pose) :=
    match dictGet? robot_id gs.robot_positions with
    | none => []
    | some q => q
  let q := dequeAppendleft ROBOT_POS_HISTORY_LENGTH (now, pos) cur
  { gs with robot_positions := dictSet robot_id q gs.robot_positions }

/-- Embeds `GameState.get_robot_last_update_time(robot_id)`. -/
def GameState.get_robot_last_update_time (gs : GameState) (robot_id : Nat) :
    Option ℚ :=
  match dictGet? robot_id gs.robot_positions with
  | none => none
  | some q =>
      match q with
      | [] => none
      | (timestamp, _) :: _ => some timestamp

/-- Embeds `GameState.is_robot_lost(robot_id)`; `now` stands for `time.time()`. -/
def GameState.is_robot_lost (gs : GameState) (now : ℚ) (robot_id : Nat) :
    Bool :=
  match gs.get_robot_last_update_time robot_id with
  | none => true
  | some last_update_time => decide (now - last_update_time > ROBOT_LOST_TIME)

/-- Embeds `GameState.diff_pos(p1, p2)`. -/
def GameState.diff_pos (p1 p2 : Pos) : Pos :=
  (p1.1 - p2.1, p1.2 - p2.2)

/-- Embeds `GameState.scale_pos(pos, factor)`. -/
def GameState.scale_pos (pos : Pos) (factor : ℚ) : Pos :=
  (pos.1 * factor, pos.2 * factor)

/-- The `while` loop of `get_ball_velocity`:
`while i < len(positions) - 1 and positions[0][0] - positions[i][0] < MIN_TIME_INTERVAL: i += 1`.
`fuel` is the number of remaining admissible increments,
initially `len(positions) - 1` so that the guard `i < len - 1` is exact. -/
def lookbackWalk (t0 : ℚ) (positions : List (Sample Pos)) :
    Nat → Nat → Nat
  | i, 0 => i
  | i, fuel + 1 =>
      if t0 - (positions.getD i (0, (0, 0))).1 < 1/20 then
        lookbackWalk t0 positions (i + 1) fuel
      else i

/-- Embeds `GameState.get_ball_velocity`.  Returns `none` when the Python code
raises `ZeroDivisionError` (the `1 / delta_time` with `delta_time = 0`);
otherwise returns the velocity together with the updated state (the
source assigns `self.ball_velocity` before returning).  The source binds
`prev_velocity = self.ball_velocity` and never uses it. -/
def GameState.get_ball_velocity (gs : GameState) : Option (Pos × GameState) :=
  let _prev_velocity := gs.ball_velocity
  let positions := gs.ball_position
  if positions.length ≤ 1 then some ((0, 0), gs)
  else
    let t0 := (positions.getD 0 (0, (0, 0))).1
    let i := lookbackWalk t0 positions 0 (positions.length - 1)
    let delta_pos :=
      GameState.diff_pos (positions.getD 0 (0, (0, 0))).2
        (positions.getD i (0, (0, 0))).2
    let delta_time := t0 - (positions.getD i (0, (0, 0))).1
    if delta_time = 0 then none
    else
      let v := GameState.scale_pos delta_pos (1 / delta_time)
      some (v, { gs with ball_velocity := v })

/-!
## Strategy (src/strategy/strategy.py)

The per-tick command reconciliation pass of `Strategy.control_loop` and
the try/except structure of `control_loop` itself.

`RobotCommands` (its class is referenced by `control_loop` but not part
of src/) is modelled from the spec.
-/

/-- Modelled from the spec: the per-robot command object returned by
`get_team_commands` (not in src/): commanded speed components and the
pending waypoint queue. -/
structure RobotCommands where
  speeds : ℚ × ℚ × ℚ
  waypoints : List Waypoint

/-- Modelled from the spec: `RobotCommands.set_speeds(x, y, w)` sets the
three commanded speed components, leaving the waypoint queue as is. -/
def RobotCommands.set_speeds (rc : RobotCommands) (x y w : ℚ) :
    RobotCommands :=
  { rc with speeds := (x, y, w) }

/-- The command reconciliation pass of `Strategy.control_loop`
(src/strategy/strategy.py): for each `(robot_id, robot_commands)` in
`list(team_commands.items())`, if `is_robot_lost` then
`set_speeds(0, 0, 0)` else `derive_speeds(pos)` with
`pos = get_robot_position(robot_id)`.  `isLost` and `getPos` stand for
the gamestate queries for the team in question; `derive_speeds` (not in
src/) is kept abstract as `derive`. -/
def reconcileCommands (isLost : Nat → Bool) (getPos : Nat → Option Pose)
    (derive : RobotCommands → Option Pose → RobotCommands)
    (team_commands : List (Nat × RobotCommands)) :
    List (Nat × RobotCommands) :=
  team_commands.map (fun p =>
    if isLost p.1 then (p.1, p.2.set_speeds 0 0 0)
    else (p.1, derive p.2 (getPos p.1)))

/-- Outcome of one iteration body of the `while self._is_controlling`
loop in `Strategy.control_loop`: the tick either completes or raises. -/
inductive TickOutcome where
  | ok : TickOutcome
  | raise : TickOutcome
deriving DecidableEq

/-- Result of running `control_loop`:  how many tick bodies started
executing, whether the `except Exception` handler logged an exception,
and whether an exception escaped `control_loop`. -/
structure LoopResult where
  ticksExecuted : Nat
  exceptionLogged : Bool
  escaped : Bool
deriving DecidableEq

/-- Embeds `Strategy.control_loop` (src/strategy/strategy.py): the `try` block
wraps the whole `while self._is_controlling` loop, and the
`except Exception` handler logs and returns.  The input list gives the
outcome of each successive tick body for as long as `_is_controlling`
would remain true; an empty remainder means the flag became false.  A
raising tick unwinds out of the `while` into the handler, so no further
tick runs and nothing escapes. -/
def control_loop_run : List TickOutcome → LoopResult
  | [] => { ticksExecuted := 0, exceptionLogged := false, escaped := false }
  | TickOutcome.ok :: rest =>
      let r := control_loop_run rest
      { r with ticksExecuted := r.ticksExecuted + 1 }
  | TickOutcome.raise :: _ =>
      { ticksExecuted := 1, exceptionLogged := true, escaped := false }

/-!
## Coordinator (src/coordinator.py)

Channel usage of the `game_loop` tick and the bodies of
`publish_new_gamestate` / `update_robot_commands`.
-/

/-- The four `multiprocessing.Queue` methods the Coordinator calls. -/
inductive QueueOp where
  | get : QueueOp
  | get_nowait : QueueOp
  | put : QueueOp
  | put_nowait : QueueOp
deriving DecidableEq

/-- Python queue semantics: `get()` blocks while the queue is empty;
`get_nowait()` and the `put` variants do not wait on an empty queue. -/
def QueueOp.blocksWhenEmpty : QueueOp → Bool
  | QueueOp.get => true
  | _ => false

/-- Python queue semantics: `put()` blocks while a bounded queue is
full; `put_nowait()` and the `get` variants do not wait on a full
queue. -/
def QueueOp.blocksWhenFull : QueueOp → Bool
  | QueueOp.put => true
  | _ => false

/-- Embeds `Coordinator.get_updated_vision_data`:
`self.vision_provider.commands_out_q.get()`. -/
def get_updated_vision_data_op : QueueOp := QueueOp.get

/-- Embeds `Coordinator.get_updated_refbox_data`:
`self.refbox_provider.commands_out_q.get()`. -/
def get_updated_refbox_data_op : QueueOp := QueueOp.get

/-- Embeds `Coordinator.publish_new_gamestate`: one `put_nowait` per team
outbound gamestate queue, each inside `try ... except: pass`. -/
def publish_new_gamestate_ops : List QueueOp :=
  [QueueOp.put_nowait, QueueOp.put_nowait]

/-- Embeds `Coordinator.update_robot_commands`: one `get_nowait` per team
command queue, each inside `try ... except: pass`. -/
def update_robot_commands_ops : List QueueOp :=
  [QueueOp.get_nowait, QueueOp.get_nowait]

/-- Embeds `Coordinator.publish_robot_commands`:
`self.radio_provider.data_in_q.put(self.robot_commands)`. -/
def publish_robot_commands_op : QueueOp := QueueOp.put

/-- The channel operations of one `Coordinator.game_loop` tick, in
program order. -/
def game_loop_tick_ops : List QueueOp :=
  [get_updated_vision_data_op, get_updated_refbox_data_op]
    ++ publish_new_gamestate_ops ++ update_robot_commands_ops
    ++ [publish_robot_commands_op]

/-- A bounded multiprocessing queue: `items` front-first (oldest first),
`capacity` its bound. -/
structure BQueue (α : Type) where
  capacity : Nat
  items : List α

/-- Embeds `q.put_nowait(a)`: raises (`Except.error`) when the queue is full,
otherwise enqueues at the back. -/
def BQueue.put_nowait {α : Type} (q : BQueue α) (a : α) :
    Except Unit (BQueue α) :=
  if q.capacity ≤ q.items.length then Except.error ()
  else Except.ok { q with items := q.items ++ [a] }

/-- Embeds `q.get_nowait()`: raises when the queue is empty, otherwise dequeues
from the front. -/
def BQueue.get_nowait {α : Type} (q : BQueue α) :
    Except Unit (α × BQueue α) :=
  match q.items with
  | [] => Except.error ()
  | a :: rest => Except.ok (a, { q with items := rest })

/-- Evaluation of a Python expression used as an argument: either a
value, or a raised exception (`exn`, e.g. `NameError`). -/
inductive PyResult (α : Type) where
  | ok : α → PyResult α
  | exn : PyResult α

/-- One `try: q.put_nowait(arg) except: pass` block as it appears twice
in `Coordinator.publish_new_gamestate`: if evaluating the argument
raises, or `put_nowait` raises Full, the bare `except` swallows it and
the queue is unchanged. -/
def tryPutNowait {α : Type} (q : BQueue α) (arg : PyResult α) : BQueue α :=
  match arg with
  | PyResult.exn => q
  | PyResult.ok a =>
      match q.put_nowait a with
      | Except.ok q2 => q2
      | Except.error _ => q

/-- Snapshots are opaque payloads here. -/
abbrev Snapshot : Type := Nat

/-- In the scope of `Coordinator.publish_new_gamestate`
(src/coordinator.py), the identifier `snapshot` is bound nowhere: not a
parameter, not a local, not a module-level name.  Evaluating it raises
`NameError`. -/
def snapshotArg : PyResult Snapshot := PyResult.exn

/-- The two outbound snapshot channels touched by
`publish_new_gamestate`. -/
structure PublishState where
  blue_gamestate_queue : BQueue Snapshot
  yellow_gamestate_queue : BQueue Snapshot

/-- Embeds `Coordinator.publish_new_gamestate` (src/coordinator.py): two
`try: <queue>.put_nowait(snapshot) except: pass` blocks.  Total (never
raises, never blocks): every internal exception is swallowed. -/
def publish_new_gamestate (st : PublishState) : PublishState :=
  { blue_gamestate_queue := tryPutNowait st.blue_gamestate_queue snapshotArg
    yellow_gamestate_queue :=
      tryPutNowait st.yellow_gamestate_queue snapshotArg }

/-!
## JohnRobot (src/move/comms/johnrobot.py)

The `move` and `kill` commands.  A transmitted record is modelled as its
list of comma-delimited integer fields; `sent = none` means
`comms.send` was not called.
-/

-- Command type constants at the top of src/move/comms/johnrobot.py.
def CMD_MOVE : ℤ := 0
def CMD_DRIBBLE : ℤ := 1
def CMD_KILL : ℤ := 2

/-- Embeds `np.clip(x, lo, hi)`. -/
def npClip (x lo hi : ℚ) : ℚ := max lo (min x hi)

/-- Python `int()` on a float: truncation toward zero. -/
def pyInt (q : ℚ) : ℤ := if 0 ≤ q then ⌊q⌋ else ⌈q⌉

/-- The fields of `JohnRobot.__init__` (the `OmniComms` handle is an
opaque transport and carries no data relevant here). -/
structure JohnRobot where
  last_command_time : ℚ
  last_command_delay : ℚ

/-- Embeds `JohnRobot.move(forward, lateral, w, ttl)`; `now` stands for
`time.time()`.  If the inter-command delay has elapsed, the record
`robot_id, CMD_MOVE, l, f, w, time_ms` is sent (with the clamped,
truncated fields computed as in the source) and `last_command_time` is
updated; otherwise nothing is sent. -/
def JohnRobot.move (r : JohnRobot) (now forward lateral w ttl : ℚ) :
    JohnRobot × Option (List ℤ) :=
  if now - r.last_command_time > r.last_command_delay then
    let robot_id : ℤ := -1
    let f := pyInt (npClip forward (-255) 255)
    let l := pyInt (npClip lateral (-255) 255)
    let w2 := pyInt (npClip w (-255) 255)
    let time_ms := pyInt (ttl * 1000)
    ({ r with last_command_time := now },
      some [robot_id, CMD_MOVE, l, f, w2, time_ms])
  else (r, none)

/-- Embeds `JohnRobot.kill()`: builds the record `robot_id, CMD_KILL` in a
local variable and returns; there is no `self.comms.send(cmd)` call and
no field assignment in its body. -/
def JohnRobot.kill (r : JohnRobot) : JohnRobot × Option (List ℤ) :=
  let robot_id : ℤ := -1
  let _cmd : List ℤ := [robot_id, CMD_KILL]
  (r, none)

/-!
## Derived definitions and concrete states used by the theorems
-/

/-- Runs a sequence of `update_robot_position` calls for one robot:
`l` lists the `(time, pos)` arguments in call order. -/
def applyRobotUpdates (gs : GameState) (robot_id : Nat)
    (l : List (Sample Pose)) : GameState :=
  l.foldl (fun g x => g.update_robot_position x.1 robot_id x.2) gs

/-- A ball history whose two samples carry identical timestamps, with a
previously cached velocity: the state of the C2 scenario. -/
def gsDupTimestamps : GameState :=
  { emptyGameState with
      ball_position := [(1, (1, 1)), (1, (0, 0))]
      ball_velocity := (7, 7) }

/-- A command object with nonzero previously set speeds and a queued
waypoint. -/
def rcExample : RobotCommands :=
  { speeds := (5, 5, 5), waypoints := [((1, 1, 0), none, none)] }

/-- A robot interface whose inter-command delay (0.15 s) has elapsed at
time 1. -/
def johnRobotExample : JohnRobot :=
  { last_command_time := 0, last_command_delay := 3/20 }

/-!
## Helper lemmas
-/

theorem dictGet?_dictSet_same {β : Type} (k : Nat) (v : β)
    (d : List (Nat × β)) : dictGet? k (dictSet k v d) = some v := by
  induction d with
  | nil => simp [dictGet?, dictSet]
  | cons p rest ih =>
      obtain ⟨key, w⟩ := p
      by_cases h : key = k <;> simp [dictSet, dictGet?, h, ih]

theorem dictGet?_dictSet_other {β : Type} (k1 k2 : Nat) (v : β)
    (d : List (Nat × β)) (h : k1 ≠ k2) :
    dictGet? k1 (dictSet k2 v d) = dictGet? k1 d := by
  have h2 : ¬ k2 = k1 := fun hh => h hh.symm
  induction d with
  | nil => simp [dictGet?, dictSet, h2]
  | cons p rest ih =>
      obtain ⟨key, w⟩ := p
      by_cases hk2 : key = k2
      · subst hk2
        simp [dictSet, dictGet?, h2]
      · by_cases hk1 : key = k1 <;> simp [dictSet, dictGet?, hk2, hk1, ih, h]

theorem take_cons_take {α : Type} (cap : Nat) (a : α) (d : List α) :
    (a :: d.take cap).take cap = (a :: d).take cap := by
  cases cap with
  | zero => simp
  | succ n => simp [List.take_succ_cons, List.take_take,
      min_eq_left (Nat.le_succ n)]

theorem foldl_dequeAppendleft {α : Type} (cap : Nat) (l : List α) :
    ∀ d : List α,
      l.foldl (fun d x => dequeAppendleft cap x d) (d.take cap)
        = (l.reverse ++ d).take cap := by
  induction l with
  | nil => intro d; simp
  | cons a t ih =>
      intro d
      have h1 : dequeAppendleft cap a (d.take cap) = (a :: d).take cap := by
        simpa [dequeAppendleft] using take_cons_take cap a d
      calc (a :: t).foldl (fun d x => dequeAppendleft cap x d) (d.take cap)
          = t.foldl (fun d x => dequeAppendleft cap x d) ((a :: d).take cap) := by
            rw [List.foldl_cons, h1]
        _ = (t.reverse ++ (a :: d)).take cap := ih (a :: d)
        _ = ((a :: t).reverse ++ d).take cap := by simp

theorem applyRobotUpdates_entry (robot_id : Nat) (l : List (Sample Pose)) :
    ∀ (gs : GameState) (q : List (Sample Pose)),
      dictGet? robot_id gs.robot_positions = some q →
      dictGet? robot_id (applyRobotUpdates gs robot_id l).robot_positions
        = some (l.foldl
            (fun d x => dequeAppendleft ROBOT_POS_HISTORY_LENGTH x d) q) := by
  induction l with
  | nil => intro gs q h; simpa [applyRobotUpdates] using h
  | cons x rest ih =>
      intro gs q h
      have hstep :
          dictGet? robot_id
              (gs.update_robot_position x.1 robot_id x.2).robot_positions
            = some (dequeAppendleft ROBOT_POS_HISTORY_LENGTH x q) := by
        simp [GameState.update_robot_position, h, dictGet?_dictSet_same]
      have hmain := ih (gs.update_robot_position x.1 robot_id x.2) _ hstep
      simpa [applyRobotUpdates] using hmain

theorem applyRobotUpdates_entry_new (robot_id : Nat) (x : Sample Pose)
    (l : List (Sample Pose)) (gs : GameState)
    (h : dictGet? robot_id gs.robot_positions = none) :
    dictGet? robot_id (applyRobotUpdates gs robot_id (x :: l)).robot_positions
      = some ((x :: l).foldl
          (fun d y => dequeAppendleft ROBOT_POS_HISTORY_LENGTH y d) []) := by
  have hstep :
      dictGet? robot_id
          (gs.update_robot_position x.1 robot_id x.2).robot_positions
        = some (dequeAppendleft ROBOT_POS_HISTORY_LENGTH x []) := by
    simp [GameState.update_robot_position, h, dictGet?_dictSet_same]
  have hmain := applyRobotUpdates_entry robot_id l
    (gs.update_robot_position x.1 robot_id x.2) _ hstep
  simpa [applyRobotUpdates] using hmain

theorem npClip_bounds (x : ℚ) :
    -255 ≤ npClip x (-255) 255 ∧ npClip x (-255) 255 ≤ 255 := by
  constructor
  · exact le_max_left _ _
  · exact max_le (by norm_num) (min_le_right _ _)

theorem pyInt_bounds (q : ℚ) (h1 : -255 ≤ q) (h2 : q ≤ 255) :
    -255 ≤ pyInt q ∧ pyInt q ≤ 255 := by
  unfold pyInt
  by_cases h : 0 ≤ q
  · simp only [h, if_true]
    constructor
    · exact Int.le_floor.2 (by exact_mod_cast h1)
    · have hf : (⌊q⌋ : ℚ) ≤ 255 := (Int.floor_le q).trans h2
      exact_mod_cast hf
  · simp only [h, if_false]
    constructor
    · have hc : (-255 : ℚ) ≤ (⌈q⌉ : ℚ) := h1.trans (Int.le_ceil q)
      exact_mod_cast hc
    · exact Int.ceil_le.2 (by exact_mod_cast h2)

/-!
## Claim theorems
-/

/-- C1: in the per-tick command reconciliation pass of the control loop,
every command emitted for a robot that `is_robot_lost` reports as lost
has all three speed components equal to zero, whatever its previously
queued waypoints or previously set speeds, and whatever `derive_speeds`
would compute. -/
theorem C1_lost_robot_zero_speeds (isLost : Nat → Bool)
    (getPos : Nat → Option Pose)
    (derive : RobotCommands → Option Pose → RobotCommands)
    (team_commands : List (Nat × RobotCommands)) (p : Nat × RobotCommands)
    (hmem : p ∈ reconcileCommands isLost getPos derive team_commands)
    (hlost : isLost p.1 = true) :
    p.2.speeds = (0, 0, 0) := by
  rcases List.mem_map.1 hmem with ⟨a, _, rfl⟩
  by_cases h : isLost a.1 = true
  · simp [h, RobotCommands.set_speeds]
  · simp [h] at hlost

/-- Witness for C1 at a concrete command map: one robot, reported lost,
with nonzero prior speeds and a queued waypoint. -/
theorem C1_lost_robot_zero_speeds_witness :
    ((1, rcExample.set_speeds 0 0 0) : Nat × RobotCommands).2.speeds
      = (0, 0, 0) :=
  C1_lost_robot_zero_speeds (fun _ => true) (fun _ => none) (fun rc _ => rc)
    [(1, rcExample)] (1, rcExample.set_speeds 0 0 0)
    (by simp [reconcileCommands]) rfl

/-- C2 (claim is false of the code): on a ball history whose newest
sample and lookback-selected sample carry identical timestamps, with a
previously cached velocity `(7, 7)`, `get_ball_velocity` does not return
the cached value: it reaches `1 / delta_time` with `delta_time = 0` and
raises `ZeroDivisionError` (embedded as `none`). -/
theorem C2_duplicate_timestamps_divide_by_zero :
    gsDupTimestamps.ball_velocity = (7, 7)
      ∧ gsDupTimestamps.get_ball_velocity = none := by
  refine ⟨rfl, ?_⟩
  simp [gsDupTimestamps, GameState.get_ball_velocity, lookbackWalk,
    emptyGameState]

/-- C3 (claim is false of the code): a tick that raises is the last tick
the control loop executes; with outcomes `[raise, ok]` only one tick
body runs, not two as "the loop proceeds to execute the next tick" would
require. -/
theorem C3_raise_stops_loop_counterexample :
    (control_loop_run [TickOutcome.raise, TickOutcome.ok]).ticksExecuted = 1
      ∧ ¬ (control_loop_run
            [TickOutcome.raise, TickOutcome.ok]).ticksExecuted = 2 := by
  decide

/-- C3 amended: an unhandled exception in a tick is caught by the
`except Exception` handler sitting outside the `while` loop and logged,
and no exception escapes `control_loop`; but the loop then terminates:
the raising tick (the one after the successful prefix) is the last one
executed. -/
theorem C3_exception_caught_but_loop_exits (ticks : List TickOutcome) :
    (control_loop_run ticks).escaped = false
  ∧ (TickOutcome.raise ∈ ticks →
      (control_loop_run ticks).exceptionLogged = true
      ∧ (control_loop_run ticks).ticksExecuted
          = (ticks.takeWhile (fun t => t == TickOutcome.ok)).length + 1) := by
  induction ticks with
  | nil => simp [control_loop_run]
  | cons t rest ih =>
      cases t with
      | ok =>
          refine ⟨ih.1, ?_⟩
          intro hmem
          have hmem2 : TickOutcome.raise ∈ rest := by
            cases hmem with
            | tail _ hh => exact hh
          refine ⟨(ih.2 hmem2).1, ?_⟩
          have htw : List.takeWhile (fun t => t == TickOutcome.ok)
              (TickOutcome.ok :: rest)
              = TickOutcome.ok
                  :: List.takeWhile (fun t => t == TickOutcome.ok) rest := rfl
          have hrun : (control_loop_run (TickOutcome.ok :: rest)).ticksExecuted
              = (control_loop_run rest).ticksExecuted + 1 := rfl
          rw [hrun, htw, (ih.2 hmem2).2]
          simp
      | raise => exact ⟨rfl, fun _ => ⟨rfl, rfl⟩⟩

/-- Witness for C3 amended at the concrete outcome list
`[ok, raise, ok]`: nothing escapes, the exception is logged, and exactly
two tick bodies ran (the raising tick was the last). -/
theorem C3_exception_caught_but_loop_exits_witness :
    (control_loop_run
        [TickOutcome.ok, TickOutcome.raise, TickOutcome.ok]).escaped = false
  ∧ (control_loop_run
        [TickOutcome.ok, TickOutcome.raise, TickOutcome.ok]).exceptionLogged
      = true
  ∧ (control_loop_run
        [TickOutcome.ok, TickOutcome.raise, TickOutcome.ok]).ticksExecuted
      = 2 := by
  have h := C3_exception_caught_but_loop_exits
    [TickOutcome.ok, TickOutcome.raise, TickOutcome.ok]
  exact ⟨h.1, (h.2 (by decide)).1, (h.2 (by decide)).2⟩

/-- C4 (claim is false of the code): the vision read of the
`game_loop` tick is a plain blocking `Queue.get()`, so on an empty
vision channel the tick waits on that worker. -/
theorem C4_blocking_vision_read_counterexample :
    get_updated_vision_data_op ∈ game_loop_tick_ops
      ∧ get_updated_vision_data_op.blocksWhenEmpty = true := by
  decide

/-- C4 amended: of the Coordinator tick's channel operations, snapshot
publishing and command collection are non-blocking (`put_nowait` /
`get_nowait`), but the vision and referee reads use blocking `get()` and
the robot-command publish uses blocking `put()`. -/
theorem C4_only_some_ops_nonblocking :
    ((publish_new_gamestate_ops ++ update_robot_commands_ops).all
        (fun op => !op.blocksWhenEmpty && !op.blocksWhenFull)) = true
  ∧ get_updated_vision_data_op.blocksWhenEmpty = true
  ∧ get_updated_refbox_data_op.blocksWhenEmpty = true
  ∧ publish_robot_commands_op.blocksWhenFull = true := by
  decide

/-- C5 (claim is false of the code): `update_robot_position` has no team
parameter, so an observation of blue robot 1 at `(1, 1, 0)` followed by
an observation of yellow robot 1 at `(2, 2, 0)` lands in one shared
entry (the dict holds a single key), and `get_robot_position` for the
blue robot returns the yellow observation. -/
theorem C5_shared_entry_across_teams_counterexample :
    ((emptyGameState.update_robot_position 0 1 (1, 1, 0)).update_robot_position
        0 1 (2, 2, 0)).get_robot_position 1 = some (2, 2, 0)
  ∧ ((emptyGameState.update_robot_position 0 1 (1, 1, 0)).update_robot_position
        0 1 (2, 2, 0)).robot_positions.length = 1 :=
  ⟨rfl, rfl⟩

/-- C5 amended: robot state is keyed by the numeric robot id alone.
Updates to one id never affect `get_robot_position` or `is_robot_lost`
of a different id; observations of two teams' robots sharing an id go to
the same entry. -/
theorem C5_distinct_ids_isolated (gs : GameState) (now now2 : ℚ)
    (id1 id2 : Nat) (pos : Pose) (h : id1 ≠ id2) :
    (gs.update_robot_position now id2 pos).get_robot_position id1
      = gs.get_robot_position id1
  ∧ (gs.update_robot_position now id2 pos).is_robot_lost now2 id1
      = gs.is_robot_lost now2 id1 := by
  have hd : dictGet? id1
      (gs.update_robot_position now id2 pos).robot_positions
        = dictGet? id1 gs.robot_positions := by
    simp [GameState.update_robot_position, dictGet?_dictSet_other _ _ _ _ h]
  constructor
  · simp [GameState.get_robot_position, hd]
  · simp [GameState.is_robot_lost, GameState.get_robot_last_update_time, hd]

/-- Witness for C5 amended: updating robot 2 leaves robot 1's position
and lost status untouched. -/
theorem C5_distinct_ids_isolated_witness :
    ((emptyGameState.update_robot_position 0 2 (9, 9, 9)).get_robot_position 1
        = emptyGameState.get_robot_position 1)
  ∧ ((emptyGameState.update_robot_position 0 2 (9, 9, 9)).is_robot_lost 3 1
        = emptyGameState.is_robot_lost 3 1) :=
  C5_distinct_ids_isolated emptyGameState 0 3 1 2 (9, 9, 9) (by decide)

/-- C6 (part of the claim is false of the code): `publish_new_gamestate`
is total over every channel state (it never blocks and never raises —
the bare `except` blocks swallow everything), but because the identifier
`snapshot` it passes to `put_nowait` is unbound, every call raises
`NameError` internally and both queues are left exactly as they were:
no publish ever delivers a snapshot, drained or not.  The concrete
conjunct shows the empty (fully drained) queues still receive
nothing. -/
theorem C6_publish_never_delivers :
    (∀ st : PublishState, publish_new_gamestate st = st)
  ∧ publish_new_gamestate
      { blue_gamestate_queue := { capacity := 5, items := [] }
        yellow_gamestate_queue := { capacity := 5, items := [] } }
    = { blue_gamestate_queue := { capacity := 5, items := [] }
        yellow_gamestate_queue := { capacity := 5, items := [] } } := by
  constructor
  · intro st
    cases st
    rfl
  · rfl

/-- C10: `kill` builds the KILL record locally and transmits nothing:
no send happens and every field of the object, `last_command_time`
included, is unchanged. -/
theorem C10_kill_transmits_nothing (r : JohnRobot) :
    (r.kill).1 = r
  ∧ (r.kill).1.last_command_time = r.last_command_time
  ∧ (r.kill).1.last_command_delay = r.last_command_delay
  ∧ (r.kill).2 = none :=
  ⟨rfl, rfl, rfl, rfl⟩

theorem get_ball_last_update_time_update (gs : GameState) (now : ℚ)
    (pos : Pos) :
    (gs.update_ball_position now pos).get_ball_last_update_time = some now :=
  rfl

/-- C7: `is_ball_lost` is true on an empty ball history; on a nonempty
history whose newest sample has time `t` it is true exactly when
`now - t` exceeds 0.1 s; and it is false immediately after any
`update_ball_position` call. -/
theorem C7_is_ball_lost_characterisation (gs : GameState) (now t : ℚ)
    (pos : Pos) :
    (gs.ball_position = [] → gs.is_ball_lost now = true)
  ∧ (gs.get_ball_last_update_time = some t →
      (gs.is_ball_lost now = true ↔ now - t > BALL_LOST_TIME))
  ∧ (gs.update_ball_position now pos).is_ball_lost now = false := by
  refine ⟨?_, ?_, ?_⟩
  · intro h
    simp [GameState.is_ball_lost, GameState.get_ball_last_update_time, h]
  · intro h
    simp [GameState.is_ball_lost, h]
  · simp [GameState.is_ball_lost, get_ball_last_update_time_update,
      BALL_LOST_TIME, sub_self]

/-- Witness for C7: the never-observed state reports the ball lost at
time 5, and reports it found right after an update at time 5. -/
theorem C7_is_ball_lost_characterisation_witness :
    emptyGameState.is_ball_lost 5 = true
  ∧ (emptyGameState.update_ball_position 5 (1, 2)).is_ball_lost 5 = false :=
  ⟨(C7_is_ball_lost_characterisation emptyGameState 5 0 (1, 2)).1 rfl,
   (C7_is_ball_lost_characterisation emptyGameState 5 0 (1, 2)).2.2⟩

/-- C8: after any sequence of `update_robot_position` calls for a robot,
`get_robot_position` returns exactly the last supplied position, and the
stored history is precisely the newest 20 samples in most-recent-first
order (so the 21st insertion evicts the oldest). -/
theorem C8_newest_position_capacity_twenty (robot_id : Nat)
    (samples : List (Sample Pose)) (s : Sample Pose) :
    (applyRobotUpdates emptyGameState robot_id
        (samples ++ [s])).get_robot_position robot_id = some s.2
  ∧ dictGet? robot_id (applyRobotUpdates emptyGameState robot_id
        (samples ++ [s])).robot_positions
      = some (((samples ++ [s]).reverse).take ROBOT_POS_HISTORY_LENGTH) := by
  have hempty : dictGet? robot_id emptyGameState.robot_positions = none := rfl
  obtain ⟨a, l2, hal⟩ : ∃ a l2, samples ++ [s] = a :: l2 := by
    cases samples with
    | nil => exact ⟨s, [], rfl⟩
    | cons b t2 => exact ⟨b, t2 ++ [s], rfl⟩
  have hfold : (samples ++ [s]).foldl
      (fun d y => dequeAppendleft ROBOT_POS_HISTORY_LENGTH y d) []
      = ((samples ++ [s]).reverse).take ROBOT_POS_HISTORY_LENGTH := by
    have h0 := foldl_dequeAppendleft ROBOT_POS_HISTORY_LENGTH
      (samples ++ [s]) []
    simpa using h0
  have hq : dictGet? robot_id (applyRobotUpdates emptyGameState robot_id
      (samples ++ [s])).robot_positions
      = some (((samples ++ [s]).reverse).take ROBOT_POS_HISTORY_LENGTH) := by
    rw [hal] at hfold ⊢
    rw [applyRobotUpdates_entry_new robot_id a l2 emptyGameState hempty, hfold]
  refine ⟨?_, hq⟩
  have h19 : List.take ROBOT_POS_HISTORY_LENGTH (s :: samples.reverse)
      = s :: List.take 19 samples.reverse := rfl
  simp [GameState.get_robot_position, hq, h19]

/-- C9: whenever `move` transmits, the record is
`robot_id, CMD_MOVE, lateral, forward, rotational, ttl-in-ms` with the
three speed fields clamped into `[-255, 255]` and truncated to integers,
for all rational inputs. -/
theorem C9_move_record_clamped (r : JohnRobot)
    (now forward lateral w ttl : ℚ) (rec : List ℤ)
    (h : (r.move now forward lateral w ttl).2 = some rec) :
    rec = [-1, CMD_MOVE,
        pyInt (npClip lateral (-255) 255),
        pyInt (npClip forward (-255) 255),
        pyInt (npClip w (-255) 255),
        pyInt (ttl * 1000)]
  ∧ (-255 ≤ pyInt (npClip lateral (-255) 255)
      ∧ pyInt (npClip lateral (-255) 255) ≤ 255)
  ∧ (-255 ≤ pyInt (npClip forward (-255) 255)
      ∧ pyInt (npClip forward (-255) 255) ≤ 255)
  ∧ (-255 ≤ pyInt (npClip w (-255) 255)
      ∧ pyInt (npClip w (-255) 255) ≤ 255) := by
  have hb1 := pyInt_bounds _ (npClip_bounds lateral).1 (npClip_bounds lateral).2
  have hb2 := pyInt_bounds _ (npClip_bounds forward).1 (npClip_bounds forward).2
  have hb3 := pyInt_bounds _ (npClip_bounds w).1 (npClip_bounds w).2
  refine ⟨?_, hb1, hb2, hb3⟩
  unfold JohnRobot.move at h
  by_cases hc : now - r.last_command_time > r.last_command_delay
  · simp [hc] at h
    exact h.symm
  · simp [hc] at h

/-- Witness for C9 at concrete out-of-range inputs: forward 300 clamps
to 255, lateral -999 clamps to -255, rotation 10 passes through, and a
0.5 s time-to-live becomes 500 ms. -/
theorem C9_move_record_clamped_witness :
    ([-1, CMD_MOVE, -255, 255, 10, 500] : List ℤ)
      = [-1, CMD_MOVE,
          pyInt (npClip (-999) (-255) 255),
          pyInt (npClip 300 (-255) 255),
          pyInt (npClip 10 (-255) 255),
          pyInt ((1 / 2 : ℚ) * 1000)]
  ∧ (-255 : ℤ) ≤ pyInt (npClip (-999) (-255) 255) := by
  have h := C9_move_record_clamped johnRobotExample 1 300 (-999) 10 (1 / 2)
    [-1, CMD_MOVE, -255, 255, 10, 500]
    (by
      norm_num [johnRobotExample, JohnRobot.move, pyInt, npClip, CMD_MOVE]
      exact_mod_cast Int.ceil_intCast (α := ℚ) (-255))
  exact ⟨h.1, h.2.1.1⟩
